import Mathlib

/-!
Shallow embedding of the Medical Assistant service (`api.py`, `main.py`,
`doctors_api.py`).  External collaborators — the transformer classifier
(tokenizer, model, softmax), the translation backend, the language
detector, the label encoder artifact and the HTTP transport — are passed
as parameters to the embedded functions; every piece of glue logic
(keyword routing, greeting detection, top-N selection, table lookup,
response shaping) is translated from the source.
-/

/-- Boolean test that the first character list is an initial segment of
the second.  Helper for the substring test below. -/
def beginsWith : List Char → List Char → Bool
  | [], _ => true
  | _ :: _, [] => false
  | a :: as, b :: bs => a == b && beginsWith as bs

/-- Boolean test that `needle` occurs as a contiguous run inside the
second list. -/
def occursIn (needle : List Char) : List Char → Bool
  | [] => needle.isEmpty
  | b :: t => beginsWith needle (b :: t) || occursIn needle t

/-- Python's `needle in hay` on strings: substring containment. -/
def containsB (hay needle : String) : Bool :=
  occursIn needle.toList hay.toList

/-- Python's `str.lower()`: character-wise lowercasing (the inputs of
this program are ASCII or caseless Arabic, where per-character
lowercasing agrees with Python). -/
def pyLower (s : String) : String :=
  String.mk (s.toList.map Char.toLower)

/-- Predicate for the whitespace characters stripped by Python's
`str.strip()`. -/
def isPySpace (c : Char) : Bool :=
  c == ' ' || c == '\t' || c == '\n' || c == '\r' || c == '\x0b' || c == '\x0c'

/-- Python's `str.strip()`: drop leading and trailing whitespace. -/
def pyStrip (s : String) : String :=
  String.mk (((s.toList.dropWhile isPySpace).reverse.dropWhile isPySpace).reverse)

/-! ## Fixed tables (api.py lines 77-95, main.py lines 37-55) -/

/-- Trigger phrases of the switch-to-Arabic branch (api.py line 128). -/
def langSwitchAr : List String := ["كلمني عربي", "speak arabic"]

/-- Trigger phrases of the switch-to-English branch (api.py line 130). -/
def langSwitchEn : List String := ["speak english", "كلمني انجليزي"]

/-- Trigger phrases of the switch-to-French branch (api.py line 132). -/
def langSwitchFr : List String := ["speak french", "كلمني فرنسي"]

/-- The `greetings` dict; association list in insertion order, which is
the iteration order of a Python dict. -/
def greetings : List (String × List String) :=
  [("ar", ["اهلا", "مرحبا", "هلا", "السلام عليكم"]),
   ("en", ["hello", "hi", "hey"]),
   ("fr", ["bonjour", "salut"])]

/-- The `greeting_responses` dict. -/
def greeting_responses : List (String × String) :=
  [("ar", "أهلا بيك 👋، قوللي أعراضك؟"),
   ("en", "Hello 👋, tell me your symptoms?"),
   ("fr", "Bonjour 👋, dites-moi vos symptômes?")]

/-- The `disease_translations` dict: per-disease dict from language code
to display name. -/
def disease_translations : List (String × List (String × String)) :=
  [("Common Cold", [("ar", "نزلة برد"), ("fr", "Rhume commun")]),
   ("Diabetes", [("ar", "داء السكري"), ("fr", "Diabète")]),
   ("Migraine", [("ar", "صداع نصفي"), ("fr", "Migraine")]),
   ("Malaria", [("ar", "الملاريا"), ("fr", "Paludisme")]),
   ("Tuberculosis", [("ar", "السل"), ("fr", "Tuberculose")])]

/-! ## Knowledge lookup (api.py lines 60-65 and 142-143) -/

/-- A cell of the pandas precaution table: either a string or NaN (the
non-string value pandas yields for an empty CSV cell). -/
inductive Cell where
  | str (s : String)
  | nan
deriving DecidableEq

/-- The filter of api.py line 143: keep `p` when
`isinstance(p, str) and p.strip() != ""`. -/
def keepPrec : Cell → Option String
  | .str s => if pyStrip s == "" then none else some s
  | .nan => none

/-- `disease_desc.get(disease_en, "No description available.")`
(api.py line 142).  The description table is a parameter because its
CSV content is a data artifact, not source code. -/
def lookupDescription (descT : List (String × String)) (d : String) : String :=
  (descT.lookup d).getD "No description available."

/-- `[p for p in disease_prec.get(disease_en, []) if isinstance(p, str)
and p.strip() != ""]` (api.py line 143). -/
def lookupPrecautions (precT : List (String × List Cell)) (d : String) : List String :=
  ((precT.lookup d).getD []).filterMap keepPrec

/-! ## Chatbot replies -/

/-- The value returned by `chatbot`: a bare string on the
language-switch and greeting branches, a five-field dict on the
prediction branch (api.py lines 124-154). -/
inductive ChatReply where
  | text (s : String)
  | result (response disease description : String)
      (precautions : List String) (confidence : ℚ)
deriving DecidableEq

/-- Two-decimal rendering of a confidence for the f-string
`{prob:.2f}`.  Approximates Python's IEEE-754 float formatting with
exact rational rounding; no claim depends on the rendered digits. -/
def fmt2 (q : ℚ) : String :=
  let cents : Int := round (q * 100)
  let frac := (cents % 100).natAbs
  toString (cents / 100) ++ "." ++ (if frac < 10 then "0" else "") ++ toString frac

/-- The `response` f-string of api.py lines 146-148. -/
def formatResponse (disease_out : String) (prob : ℚ) (description : String)
    (precautions : List String) : String :=
  "📋 Expected Disease: " ++ disease_out ++ " (Confidence: " ++ fmt2 prob ++ ")\n\n"
    ++ "📝 Description: " ++ description ++ "\n\n"
    ++ (if precautions ≠ [] then
          "✅ Precautions:\n" ++ String.intercalate "\n"
            (precautions.enum.map (fun p => toString (p.1 + 1) ++ ". " ++ p.2))
        else "")

/-- `greeting_responses.get(current_lang, greeting_responses["en"])`
(api.py line 138); the inner default is unreachable since "en" is a key
of the table. -/
def greetingReply (current_lang : String) : String :=
  (greeting_responses.lookup current_lang).getD
    ((greeting_responses.lookup "en").getD "")

/-- The `chatbot` function (api.py lines 124-154).  `classify` stands
for `predict_disease`, the composite of translator, transformer model
and label encoder applied to the input and the current language: the
chatbot-level claims hold for every classifier, so it is a parameter.
The result pairs the reply with the new value of the `current_lang`
global. -/
def chatbot (classify : String → String → String × String × ℚ)
    (descT : List (String × String)) (precT : List (String × List Cell))
    (current_lang : String) (user_input : String) : ChatReply × String :=
  let lower := pyLower user_input
  if langSwitchAr.any (fun w => containsB lower w) then
    (.text "تمام ✅ هكلمك بالعربي!", "ar")
  else if langSwitchEn.any (fun w => containsB lower w) then
    (.text "Okay ✅ I'll speak English now!", "en")
  else if langSwitchFr.any (fun w => containsB lower w) then
    (.text "تمام ✅ هكلمك بالفرنساوي من دلوقتي!", "fr")
  else if (greetings.find? (fun p => p.2.any (fun w => containsB lower w))).isSome then
    (.text (greetingReply current_lang), current_lang)
  else
    let r := classify user_input current_lang
    let description := lookupDescription descT r.1
    let precautions := lookupPrecautions precT r.1
    (.result (formatResponse r.2.1 r.2.2 description precautions)
        r.2.1 description precautions r.2.2, current_lang)

/-! ## Ranking (api.py lines 103-122, main.py lines 60-79) -/

/-- `probs.argsort()`: the indices of `probs` ordered by ascending
value (ties in an arbitrary but fixed order, as numpy leaves them
unspecified). -/
def argsort (probs : List ℚ) : List Nat :=
  (List.range probs.length).insertionSort
    (fun i j => probs.getD i 0 ≤ probs.getD j 0)

/-- Python's tail slice `l[-n:]` for a non-negative `n`: the last `n`
elements, except that `l[-0:]` is the whole list. -/
def lastSlice (l : List α) (n : Nat) : List α :=
  if n = 0 then l else l.drop (l.length - n)

/-- The `predict_top` function (api.py lines 103-118).  `model` is the
composite of the translation call, the tokenizer, the transformer and
the softmax, yielding the probability vector for a text; `enc` is
`le.inverse_transform` on a single index; `det` is `langdetect.detect`.
The body embeds `probs.argsort()[-top_n:][::-1]`, the index-to-name
resolution, the language fallback and the per-disease translation
lookup, and returns the zipped (disease, translated, confidence)
triples. -/
def predict_top (model : String → List ℚ) (enc : Nat → String)
    (det : String → String) (symptoms_text : String) (lang : Option String)
    (top_n : Nat) : List (String × String × ℚ) :=
  let probs := model symptoms_text
  let top_idx := (lastSlice (argsort probs) top_n).reverse
  let diseases := top_idx.map enc
  let confidences := top_idx.map (fun i => probs.getD i 0)
  let lang2 := match lang with
    | some l => l
    | none => det symptoms_text
  let translated := diseases.map (fun d =>
    (((disease_translations.lookup d).getD []).lookup lang2).getD d)
  diseases.zip (translated.zip confidences)

/-- The `predict_disease` function (api.py lines 120-122): the head of
the top-10 list.  `top[0]` raises `IndexError` on an empty list, hence
the `Option`. -/
def predict_disease (model : String → List ℚ) (enc : Nat → String)
    (det : String → String) (symptoms_text : String) (lang : Option String) :
    Option (String × String × ℚ) :=
  (predict_top model enc det symptoms_text lang 10).head?

/-! ## The /chat endpoint (api.py lines 203-209, main.py lines 149-165) -/

/-- Models the expression `chat_resp["response"]` of api.py line 206:
subscripting with a string key yields the field on a dict reply and
raises `TypeError` on a plain-string reply (modelled as `none`). -/
def respField : ChatReply → Option String
  | .text _ => none
  | .result r _ _ _ _ => some r

/-- The body of the `/chat` response: the `chat` object, the full
history, and the top-10 triples (the endpoint relabels each triple as a
dict with keys `disease_en`, `disease_translated`, `confidence`; the
relabelling is shape-preserving and kept as the triple). -/
structure ChatOut where
  chat : ChatReply
  history : List (String × String)
  top10 : List (String × String × ℚ)
deriving DecidableEq

/-- The `chat_endpoint` handler (api.py lines 203-209).  State is passed
explicitly: `current_lang` and `chat_history` enter as arguments and the
updated values are returned beside the response body.  `none` models the
request failing with an uncaught `TypeError` at `chat_resp["response"]`,
in which case no response body is produced. -/
def chat_endpoint (classify : String → String → String × String × ℚ)
    (descT : List (String × String)) (precT : List (String × List Cell))
    (model : String → List ℚ) (enc : Nat → String) (det : String → String)
    (current_lang : String) (chat_history : List (String × String))
    (message : String) : Option (ChatOut × String × List (String × String)) :=
  let cr := chatbot classify descT precT current_lang message
  match respField cr.1 with
  | none => none
  | some resp =>
      let hist2 := chat_history ++ [(message, resp)]
      let top10 := predict_top model enc det message (some cr.2) 10
      some (⟨cr.1, hist2, top10⟩, cr.2, hist2)

/-! ## Doctor lookup (doctors_api.py lines 26-79) -/

/-- JSON values, the shape of the doctor-directory response body. -/
inductive Json where
  | str (s : String)
  | num (q : ℚ)
  | bool (b : Bool)
  | null
  | arr (xs : List Json)
  | obj (fields : List (String × Json))

/-- The outcome of `requests.get` + `raise_for_status` + `.json()`:
a `RequestException` (network failure or, via `raise_for_status`, a
non-2xx HTTP status), a `ValueError` from JSON parsing, or a parsed
value. -/
inductive FetchResult where
  | netErr (msg : String)
  | badJson
  | ok (data : Json)

/-- Python truthiness of a JSON value, for the `if not data:` test of
doctors_api.py line 58. -/
def pyTruthy : Json → Bool
  | .null => false
  | .bool b => b
  | .num q => q != 0
  | .str s => s != ""
  | .arr xs => !xs.isEmpty
  | .obj fs => !fs.isEmpty

/-- Python iteration `for doc in data` over a JSON value: lists yield
their elements, strings their characters, dicts their keys; other
values raise `TypeError` (modelled as `none`). -/
def pyIter : Json → Option (List Json)
  | .arr xs => some xs
  | .str s => some (s.toList.map (fun c => .str c.toString))
  | .obj fs => some (fs.map (fun f => .str f.1))
  | _ => none

/-- Reshaping of one entry (doctors_api.py lines 63-74): a dict entry
becomes the fixed six-field record (with `contact` drawn from the
source's `phone` field and `None` where a field is missing); any other
entry is kept verbatim under `raw_entry`. -/
def shapeDoc : Json → Json
  | .obj fs =>
      .obj [("name", (fs.lookup "name").getD .null),
            ("specialization", (fs.lookup "specialization").getD .null),
            ("hospital", (fs.lookup "hospital").getD .null),
            ("address", (fs.lookup "address").getD .null),
            ("contact", (fs.lookup "phone").getD .null),
            ("rating", (fs.lookup "rating").getD .null)]
  | j => .obj [("raw_entry", j)]

/-- The tail of `get_doctors` after the unwrap decision (doctors_api.py
lines 58-76), applied to the possibly-unwrapped data: the emptiness
check, the shaping loop and the count/doctors payload.  `none` models an
uncaught `TypeError` when the data is not iterable. -/
def shapeData (data : Json) : Option Json :=
  if !pyTruthy data then
    some (.obj [("message", .str "No doctors found for the given disease or symptom.")])
  else
    match pyIter data with
    | none => none
    | some docs =>
        some (.obj [("count", .num docs.length),
                    ("doctors", .arr (docs.map shapeDoc))])

/-- The `get_doctors` function (doctors_api.py lines 26-79), given the
outcome of the HTTP fetch.  The query-parameter assembly ahead of the
request does not affect the returned shape and is absorbed into
`FetchResult`.  `some` is a value returned to the caller; `none` is an
exception escaping the call. -/
def get_doctors : FetchResult → Option Json
  | .netErr e => some (.obj [("error", .str ("Failed to fetch doctors: " ++ e))])
  | .badJson => some (.obj [("error", .str "Invalid response format from Doctors API.")])
  | .ok data =>
      match data with
      | .obj fs =>
          match fs.lookup "doctors" with
          | some inner => shapeData inner
          | none => some (.obj [("message", .str "Unexpected API response structure."),
                                ("raw", .obj fs)])
      | .arr xs => shapeData (.arr xs)
      | other => some (.obj [("message", .str "Unexpected API response structure."),
                             ("raw", other)])

/-- The keys of a JSON object, in order; `[]` on non-objects. -/
def jsonKeys : Json → List String
  | .obj fs => fs.map (fun f => f.1)
  | _ => []

/-- Field access on a JSON object. -/
def getField (j : Json) (k : String) : Option Json :=
  match j with
  | .obj fs => fs.lookup k
  | _ => none

/-! ## Theorems -/

/-- C5: knowledge lookup of a disease absent from the description table
yields exactly "No description available."; lookup in the precaution
table of an absent disease yields the empty list; and every returned
precaution list contains only non-blank entries (non-string and blank
entries are filtered out). -/
theorem claim_C5 (descT : List (String × String)) (precT : List (String × List Cell))
    (d : String) (hd : descT.lookup d = none) (hp : precT.lookup d = none) :
    lookupDescription descT d = "No description available." ∧
    lookupPrecautions precT d = [] ∧
    (∀ precT2 : List (String × List Cell), ∀ d2 : String,
      ∀ s ∈ lookupPrecautions precT2 d2, pyStrip s ≠ "") := by
  refine ⟨by simp [lookupDescription, hd], by simp [lookupPrecautions, hp], ?_⟩
  intro precT2 d2 s hs
  simp only [lookupPrecautions, List.mem_filterMap] at hs
  obtain ⟨c, _, hk⟩ := hs
  cases c with
  | nan => simp [keepPrec] at hk
  | str s2 =>
      by_cases hb : pyStrip s2 == ""
      · simp [keepPrec, hb] at hk
      · simp only [keepPrec, hb, if_neg] at hk
        cases hk
        simpa using hb

/-- Witness for C5 at a concrete table: the disease "Flu" is absent
from both tables. -/
theorem claim_C5_witness :
    (([("Cold", "desc")] : List (String × String)).lookup "Flu" = none) ∧
    (([("Cold", [Cell.str "rest"])] : List (String × List Cell)).lookup "Flu" = none) ∧
    (lookupDescription [("Cold", "desc")] "Flu" = "No description available." ∧
     lookupPrecautions [("Cold", [Cell.str "rest"])] "Flu" = [] ∧
     (∀ precT2 : List (String × List Cell), ∀ d2 : String,
       ∀ s ∈ lookupPrecautions precT2 d2, pyStrip s ≠ "")) :=
  ⟨by decide, by decide,
   claim_C5 [("Cold", "desc")] [("Cold", [Cell.str "rest"])] "Flu" (by decide) (by decide)⟩

/-- C7: every network or HTTP failure of the doctor-directory request
(`raise_for_status` turns a non-200 status into such a failure) is
caught and turned into a returned payload carrying an "error" field;
the call returns a value, no exception escapes. -/
theorem claim_C7 (e : String) :
    get_doctors (.netErr e) =
      some (.obj [("error", .str ("Failed to fetch doctors: " ++ e))]) ∧
    (get_doctors (.netErr e)).isSome = true ∧
    getField ((get_doctors (.netErr e)).getD .null) "error" =
      some (.str ("Failed to fetch doctors: " ++ e)) :=
  ⟨rfl, rfl, rfl⟩

/-- C9: a doctor-API response parsing to an empty doctors list yields
exactly the fixed no-doctors message, a payload whose only key is
"message" (so no count and no doctors field); the count/doctors shape
arises only from non-empty lists. -/
theorem claim_C9 (fs : List (String × Json))
    (h : fs.lookup "doctors" = some (.arr [])) :
    get_doctors (.ok (.obj fs)) =
      some (.obj [("message", .str "No doctors found for the given disease or symptom.")]) ∧
    get_doctors (.ok (.arr [])) =
      some (.obj [("message", .str "No doctors found for the given disease or symptom.")]) ∧
    jsonKeys ((get_doctors (.ok (.obj fs))).getD .null) = ["message"] ∧
    (∀ xs : List Json, xs ≠ [] →
      shapeData (.arr xs) =
        some (.obj [("count", .num xs.length),
                    ("doctors", .arr (xs.map shapeDoc))])) := by
  refine ⟨?_, rfl, ?_, ?_⟩
  · simp [get_doctors, h, shapeData, pyTruthy]
  · simp [get_doctors, h, shapeData, pyTruthy, jsonKeys]
  · intro xs hxs
    simp [shapeData, pyTruthy, pyIter, hxs]

/-- Witness for C9 at a concrete response object. -/
theorem claim_C9_witness :
    (([("doctors", Json.arr [])] : List (String × Json)).lookup "doctors" =
      some (.arr [])) ∧
    (get_doctors (.ok (.obj [("doctors", Json.arr [])])) =
      some (.obj [("message", .str "No doctors found for the given disease or symptom.")]) ∧
     get_doctors (.ok (.arr [])) =
      some (.obj [("message", .str "No doctors found for the given disease or symptom.")]) ∧
     jsonKeys ((get_doctors (.ok (.obj [("doctors", Json.arr [])]))).getD .null) = ["message"] ∧
     (∀ xs : List Json, xs ≠ [] →
       shapeData (.arr xs) =
         some (.obj [("count", .num xs.length),
                     ("doctors", .arr (xs.map shapeDoc))]))) :=
  ⟨rfl, claim_C9 [("doctors", Json.arr [])] rfl⟩

/-- C6: a doctor-API response that is a JSON mapping binding "doctors"
to a list of two mapping entries yields count = 2 and a doctors list of
length 2; every shaped mapping entry carries exactly the six fields
name, specialization, hospital, address, contact, rating (null where
the source lacks the field, with contact drawn from the source's phone
field); every non-mapping source entry is kept verbatim under the
raw_entry marker. -/
theorem claim_C6 (fs : List (String × Json)) (f1 f2 : List (String × Json))
    (h : fs.lookup "doctors" = some (.arr [.obj f1, .obj f2])) :
    get_doctors (.ok (.obj fs)) =
      some (.obj [("count", .num 2),
        ("doctors", .arr [shapeDoc (.obj f1), shapeDoc (.obj f2)])]) ∧
    (∀ f : List (String × Json),
      jsonKeys (shapeDoc (.obj f)) =
        ["name", "specialization", "hospital", "address", "contact", "rating"]) ∧
    (∀ f : List (String × Json),
      ∀ k ∈ (["name", "specialization", "hospital", "address"] : List String),
        f.lookup k = none → getField (shapeDoc (.obj f)) k = some .null) ∧
    (∀ f : List (String × Json), f.lookup "phone" = none →
      getField (shapeDoc (.obj f)) "contact" = some .null) ∧
    (∀ f : List (String × Json), f.lookup "rating" = none →
      getField (shapeDoc (.obj f)) "rating" = some .null) ∧
    (∀ j : Json, (∀ g : List (String × Json), j ≠ .obj g) →
      shapeDoc j = .obj [("raw_entry", j)]) := by
  refine ⟨?_, ?_, ?_, ?_, ?_, ?_⟩
  · simp [get_doctors, h, shapeData, pyTruthy, pyIter]
  · intro f; simp [shapeDoc, jsonKeys]
  · intro f k hk hnone
    fin_cases hk <;> simp [shapeDoc, getField, List.lookup, hnone]
  · intro f hnone; simp [shapeDoc, getField, List.lookup, hnone]
  · intro f hnone; simp [shapeDoc, getField, List.lookup, hnone]
  · intro j hj
    cases j with
    | obj g => exact absurd rfl (hj g)
    | str s => rfl
    | num q => rfl
    | bool b => rfl
    | null => rfl
    | arr xs => rfl

/-- Witness for C6 at a concrete two-entry response: the first source
entry has a name and a phone, the second is empty (all fields null). -/
theorem claim_C6_witness :
    (([("doctors", Json.arr [.obj [("name", .str "Dr. A"), ("phone", .str "123")],
                             .obj []])] : List (String × Json)).lookup "doctors" =
      some (.arr [.obj [("name", .str "Dr. A"), ("phone", .str "123")], .obj []])) ∧
    (get_doctors (.ok (.obj [("doctors", Json.arr
        [.obj [("name", .str "Dr. A"), ("phone", .str "123")], .obj []])])) =
      some (.obj [("count", .num 2),
        ("doctors", .arr [shapeDoc (.obj [("name", .str "Dr. A"), ("phone", .str "123")]),
                          shapeDoc (.obj [])])]) ∧
     (∀ f : List (String × Json),
       jsonKeys (shapeDoc (.obj f)) =
         ["name", "specialization", "hospital", "address", "contact", "rating"]) ∧
     (∀ f : List (String × Json),
       ∀ k ∈ (["name", "specialization", "hospital", "address"] : List String),
         f.lookup k = none → getField (shapeDoc (.obj f)) k = some .null) ∧
     (∀ f : List (String × Json), f.lookup "phone" = none →
       getField (shapeDoc (.obj f)) "contact" = some .null) ∧
     (∀ f : List (String × Json), f.lookup "rating" = none →
       getField (shapeDoc (.obj f)) "rating" = some .null) ∧
     (∀ j : Json, (∀ g : List (String × Json), j ≠ .obj g) →
       shapeDoc j = .obj [("raw_entry", j)])) :=
  ⟨rfl, claim_C6 [("doctors", Json.arr
      [.obj [("name", .str "Dr. A"), ("phone", .str "123")], .obj []])]
      [("name", .str "Dr. A"), ("phone", .str "123")] [] rfl⟩

/-- Trivial classifier used to instantiate witness statements. -/
def classifyStub : String → String → String × String × ℚ :=
  fun _ _ => ("Flu", "Flu", 1)

/-- C3: an input containing a language-switch trigger (tested on the
lower-cased text, hence case-insensitively) makes the chatbot set the
shared language to the corresponding code and return that branch's
fixed acknowledgment string, the first matching trigger set winning
without falling through to greeting or prediction handling. -/
theorem claim_C3 (classify : String → String → String × String × ℚ)
    (descT : List (String × String)) (precT : List (String × List Cell))
    (lang input : String) :
    (langSwitchAr.any (fun w => containsB (pyLower input) w) = true →
      chatbot classify descT precT lang input = (.text "تمام ✅ هكلمك بالعربي!", "ar")) ∧
    (langSwitchAr.any (fun w => containsB (pyLower input) w) = false →
      langSwitchEn.any (fun w => containsB (pyLower input) w) = true →
      chatbot classify descT precT lang input = (.text "Okay ✅ I'll speak English now!", "en")) ∧
    (langSwitchAr.any (fun w => containsB (pyLower input) w) = false →
      langSwitchEn.any (fun w => containsB (pyLower input) w) = false →
      langSwitchFr.any (fun w => containsB (pyLower input) w) = true →
      chatbot classify descT precT lang input = (.text "تمام ✅ هكلمك بالفرنساوي من دلوقتي!", "fr")) := by
  refine ⟨fun h1 => ?_, fun h1 h2 => ?_, fun h1 h2 h3 => ?_⟩
  · simp [chatbot, h1]
  · simp [chatbot, h1, h2]
  · simp [chatbot, h1, h2, h3]

/-- Witness for C3: the mixed-case input "Speak Arabic please" hits the
Arabic trigger. -/
theorem claim_C3_witness :
    (langSwitchAr.any (fun w => containsB (pyLower "Speak Arabic please") w) = true) ∧
    chatbot classifyStub [] [] "en" "Speak Arabic please" =
      (.text "تمام ✅ هكلمك بالعربي!", "ar") :=
  ⟨by decide,
   (claim_C3 classifyStub [] [] "en" "Speak Arabic please").1 (by decide)⟩

/-- C4: an input matching no language-switch trigger but containing a
greeting token of some language's list makes the chatbot reply with the
fixed greeting of the process's current shared language — not the
matched language — and leave the language unchanged; with current
language "en" that reply is exactly "Hello 👋, tell me your symptoms?". -/
theorem claim_C4 (classify : String → String → String × String × ℚ)
    (descT : List (String × String)) (precT : List (String × List Cell))
    (lang input resp : String)
    (h1 : langSwitchAr.any (fun w => containsB (pyLower input) w) = false)
    (h2 : langSwitchEn.any (fun w => containsB (pyLower input) w) = false)
    (h3 : langSwitchFr.any (fun w => containsB (pyLower input) w) = false)
    (h4 : (greetings.find? (fun p => p.2.any (fun w => containsB (pyLower input) w))).isSome = true)
    (h5 : greeting_responses.lookup lang = some resp) :
    chatbot classify descT precT lang input = (.text resp, lang) := by
  simp [chatbot, h1, h2, h3, h4, greetingReply, h5]

/-- Witness for C4: input "hello" with current language "en" yields
exactly the English greeting. -/
theorem claim_C4_witness :
    (langSwitchAr.any (fun w => containsB (pyLower "hello") w) = false) ∧
    (langSwitchEn.any (fun w => containsB (pyLower "hello") w) = false) ∧
    (langSwitchFr.any (fun w => containsB (pyLower "hello") w) = false) ∧
    ((greetings.find? (fun p => p.2.any (fun w => containsB (pyLower "hello") w))).isSome = true) ∧
    (greeting_responses.lookup "en" = some "Hello 👋, tell me your symptoms?") ∧
    chatbot classifyStub [] [] "en" "hello" =
      (.text "Hello 👋, tell me your symptoms?", "en") :=
  ⟨by decide, by decide, by decide, by decide, by decide,
   claim_C4 classifyStub [] [] "en" "hello" "Hello 👋, tell me your symptoms?"
     (by decide) (by decide) (by decide) (by decide) (by decide)⟩

/-- C8: greeting matching is a substring test on the lower-cased input:
whenever some configured greeting token occurs inside the lower-cased
input (and no language-switch phrase does), the chatbot returns a
greeting text and its output does not depend on the classifier — the
symptom classifier is never consulted.  The input "chills" containing
the token "hi" is the witness below. -/
theorem claim_C8 (classify1 classify2 : String → String → String × String × ℚ)
    (descT : List (String × String)) (precT : List (String × List Cell))
    (lang input : String)
    (h1 : langSwitchAr.any (fun w => containsB (pyLower input) w) = false)
    (h2 : langSwitchEn.any (fun w => containsB (pyLower input) w) = false)
    (h3 : langSwitchFr.any (fun w => containsB (pyLower input) w) = false)
    (h4 : (greetings.find? (fun p => p.2.any (fun w => containsB (pyLower input) w))).isSome = true) :
    (chatbot classify1 descT precT lang input).1 = .text (greetingReply lang) ∧
    chatbot classify1 descT precT lang input = chatbot classify2 descT precT lang input := by
  constructor <;> simp [chatbot, h1, h2, h3, h4]

/-- Witness for C8: "chills" contains the greeting token "hi", so two
classifiers that disagree everywhere still give the same greeting
reply. -/
theorem claim_C8_witness :
    (langSwitchAr.any (fun w => containsB (pyLower "chills") w) = false) ∧
    (langSwitchEn.any (fun w => containsB (pyLower "chills") w) = false) ∧
    (langSwitchFr.any (fun w => containsB (pyLower "chills") w) = false) ∧
    ((greetings.find? (fun p => p.2.any (fun w => containsB (pyLower "chills") w))).isSome = true) ∧
    ((chatbot classifyStub [] [] "en" "chills").1 = .text (greetingReply "en") ∧
     chatbot classifyStub [] [] "en" "chills" =
       chatbot (fun _ _ => ("Cold", "Cold", 0)) [] [] "en" "chills") :=
  ⟨by decide, by decide, by decide, by decide,
   claim_C8 classifyStub (fun _ _ => ("Cold", "Cold", 0)) [] [] "en" "chills"
     (by decide) (by decide) (by decide) (by decide)⟩

/-- C10: an input whose lower-cased text contains none of the six
language-switch trigger phrases leaves the shared current-language
state unchanged, whichever of the remaining branches runs. -/
theorem claim_C10 (classify : String → String → String × String × ℚ)
    (descT : List (String × String)) (precT : List (String × List Cell))
    (lang input : String)
    (h : (langSwitchAr ++ langSwitchEn ++ langSwitchFr).all
      (fun w => !containsB (pyLower input) w) = true) :
    (chatbot classify descT precT lang input).2 = lang := by
  have h' : ∀ w ∈ langSwitchAr ++ langSwitchEn ++ langSwitchFr,
      containsB (pyLower input) w = false := by
    intro w hw
    have := List.all_eq_true.mp h w hw
    simpa using this
  have h1 : langSwitchAr.any (fun w => containsB (pyLower input) w) = false := by
    rw [List.any_eq_false]
    intro w hw
    simp [h' w (by simp [hw])]
  have h2 : langSwitchEn.any (fun w => containsB (pyLower input) w) = false := by
    rw [List.any_eq_false]
    intro w hw
    simp [h' w (by simp [hw])]
  have h3 : langSwitchFr.any (fun w => containsB (pyLower input) w) = false := by
    rw [List.any_eq_false]
    intro w hw
    simp [h' w (by simp [hw])]
  simp only [chatbot, h1, h2, h3, Bool.false_eq_true, if_false]
  split <;> rfl

/-- Witness for C10: the prediction-branch input "i have a headache"
contains no trigger phrase and the language stays "fr". -/
theorem claim_C10_witness :
    ((langSwitchAr ++ langSwitchEn ++ langSwitchFr).all
      (fun w => !containsB (pyLower "i have a headache") w) = true) ∧
    (chatbot classifyStub [] [] "fr" "i have a headache").2 = "fr" :=
  ⟨by decide, claim_C10 classifyStub [] [] "fr" "i have a headache" (by decide)⟩

/-- C1: evaluation at the failing input.  For the message "hello" the
chatbot takes the greeting branch and returns a bare string, not the
five-key mapping the claim asserts; the endpoint's unconditional
subscript chat_resp["response"] then raises TypeError, so the /chat
request produces no response body of the claimed shape at all —
whatever the classifier, the tables and the prior state. -/
theorem claim_C1 (classify : String → String → String × String × ℚ)
    (descT : List (String × String)) (precT : List (String × List Cell))
    (model : String → List ℚ) (enc : Nat → String) (det : String → String)
    (lang : String) (hist : List (String × String)) :
    (chatbot classify descT precT lang "hello").1 = .text (greetingReply lang) ∧
    (∀ r d de p c, (chatbot classify descT precT lang "hello").1 ≠ .result r d de p c) ∧
    chat_endpoint classify descT precT model enc det lang hist "hello" = none := by
  have hA : langSwitchAr.any (fun w => containsB (pyLower "hello") w) = false := by decide
  have hE : langSwitchEn.any (fun w => containsB (pyLower "hello") w) = false := by decide
  have hF : langSwitchFr.any (fun w => containsB (pyLower "hello") w) = false := by decide
  have hG : (greetings.find? (fun p => p.2.any (fun w => containsB (pyLower "hello") w))).isSome = true := by
    decide
  refine ⟨by simp [chatbot, hA, hE, hF, hG], ?_, ?_⟩
  · intro r d de p c
    simp [chatbot, hA, hE, hF, hG]
  · simp [chat_endpoint, chatbot, hA, hE, hF, hG, respField]

/-- Auxiliary: third components of the zipped triples, when the three
lists have equal lengths, are exactly the third list. -/
theorem map_snd_snd_zip {α β γ : Type} (xs : List α) (ys : List β) (zs : List γ)
    (h1 : xs.length = ys.length) (h2 : ys.length = zs.length) :
    (xs.zip (ys.zip zs)).map (fun t => t.2.2) = zs := by
  induction xs generalizing ys zs with
  | nil =>
      cases ys with
      | nil =>
          cases zs with
          | nil => rfl
          | cons z zs => simp at h2
      | cons y ys => simp at h1
  | cons x xs ih =>
      cases ys with
      | nil => simp at h1
      | cons y ys =>
          cases zs with
          | nil => simp at h2
          | cons z zs =>
              simp only [List.zip_cons_cons, List.map_cons]
              rw [ih ys zs (by simpa using h1) (by simpa using h2)]

/-- Auxiliary: the index list produced by argsort is ascending in the
probability it points to. -/
theorem argsort_pairwise (probs : List ℚ) :
    (argsort probs).Pairwise (fun i j => probs.getD i 0 ≤ probs.getD j 0) := by
  haveI h1 : IsTotal ℕ (fun i j => probs.getD i 0 ≤ probs.getD j 0) :=
    ⟨fun a b => le_total _ _⟩
  haveI h2 : IsTrans ℕ (fun i j => probs.getD i 0 ≤ probs.getD j 0) :=
    ⟨fun a b c hab hbc => le_trans hab hbc⟩
  exact List.sorted_insertionSort _ _

/-- Auxiliary: argsort only yields valid indices. -/
theorem argsort_mem (probs : List ℚ) (i : Nat) (h : i ∈ argsort probs) :
    i < probs.length := by
  simp only [argsort] at h
  have hp := List.perm_insertionSort
    (fun i j => probs.getD i 0 ≤ probs.getD j 0) (List.range probs.length)
  simpa using hp.mem_iff.mp h

/-- Auxiliary: a tail slice is a sublist. -/
theorem lastSlice_sublist {α : Type} (l : List α) (n : Nat) :
    (lastSlice l n).Sublist l := by
  unfold lastSlice
  split
  · exact List.Sublist.refl l
  · exact List.drop_sublist _ _

/-- Auxiliary: for a positive bound the tail slice has at most that
many elements. -/
theorem lastSlice_length_le {α : Type} {l : List α} {n : Nat} (hn : 1 ≤ n) :
    (lastSlice l n).length ≤ n := by
  unfold lastSlice
  split
  · omega
  · simp only [List.length_drop]
    omega

/-- C2 (amended): for every positive bound n, and every probability
vector the model yields (softmax output: entries non-negative, summing
to one), predict_top returns at most n triples whose confidences are
non-increasing and lie in [0, 1], and the confidences over the full
label space sum to at most 1.  With bound 0 the Python tail slice
returns the whole label space instead, see the counterexample. -/
theorem claim_C2 (model : String → List ℚ) (enc : Nat → String)
    (det : String → String) (text : String) (lang : Option String) (n : Nat)
    (hn : 1 ≤ n)
    (hpos : ∀ p ∈ model text, 0 ≤ p) (hsum : (model text).sum = 1) :
    (predict_top model enc det text lang n).length ≤ n ∧
    ((predict_top model enc det text lang n).map (fun t => t.2.2)).Pairwise
      (fun a b => b ≤ a) ∧
    (∀ t ∈ predict_top model enc det text lang n, 0 ≤ t.2.2 ∧ t.2.2 ≤ 1) ∧
    (model text).sum ≤ 1 := by
  have key : ∃ (idx : List Nat) (tr : String → String),
      (∀ i ∈ idx, i < (model text).length) ∧
      idx.Pairwise (fun i j => (model text).getD j 0 ≤ (model text).getD i 0) ∧
      idx.length ≤ n ∧
      predict_top model enc det text lang n =
        (idx.map enc).zip (((idx.map enc).map tr).zip
          (idx.map (fun i => (model text).getD i 0))) := by
    refine ⟨(lastSlice (argsort (model text)) n).reverse,
      fun d => (((disease_translations.lookup d).getD []).lookup
        (match lang with | some l => l | none => det text)).getD d,
      ?_, ?_, ?_, by rfl⟩
    · intro i hi
      rw [List.mem_reverse] at hi
      exact argsort_mem (model text) i ((lastSlice_sublist _ _).subset hi)
    · rw [List.pairwise_reverse]
      exact (argsort_pairwise (model text)).sublist (lastSlice_sublist _ _)
    · rw [List.length_reverse]
      exact lastSlice_length_le hn
  obtain ⟨idx, tr, hmem, hpair, hlen, hEq⟩ := key
  have hlens : (idx.map enc).length = ((idx.map enc).map tr).length := by simp
  have hlens2 : ((idx.map enc).map tr).length =
      (idx.map (fun i => (model text).getD i 0)).length := by simp
  have hsnd := map_snd_snd_zip _ _ _ hlens hlens2
  refine ⟨?_, ?_, ?_, hsum.le⟩
  · rw [hEq, List.length_zip, List.length_zip]
    simp only [List.length_map, min_self]
    exact hlen
  · rw [hEq, hsnd, List.pairwise_map]
    exact hpair
  · intro t ht
    have hc : t.2.2 ∈ idx.map (fun i => (model text).getD i 0) := by
      rw [← hsnd]
      exact List.mem_map_of_mem (fun t => t.2.2) (hEq ▸ ht)
    rw [List.mem_map] at hc
    obtain ⟨i, hi, hci⟩ := hc
    have hlt : i < (model text).length := hmem i hi
    have hmemp : (model text).getD i 0 ∈ model text := by
      rw [List.getD_eq_getElem _ _ hlt]
      exact List.getElem_mem hlt
    refine ⟨hci ▸ hpos _ hmemp, hci ▸ ?_⟩
    calc (model text).getD i 0 ≤ (model text).sum :=
          List.single_le_sum hpos _ hmemp
      _ = 1 := hsum

/-- C2 counterexample: with bound 0 the Python tail slice
probs.argsort()[-0:] is the whole array, so predict_top returns one
entry on a one-class model where the claim allows none. -/
theorem claim_C2_counterexample :
    ¬ ((predict_top (fun _ => [(1 : ℚ)]) (fun i => toString i) (fun _ => "en")
        "x" (some "en") 0).length ≤ 0) := by decide

/-- Witness for C2 at the distribution [1, 0, 0] and bound 2. -/
theorem claim_C2_witness :
    (1 ≤ 2) ∧ (∀ p ∈ [(1 : ℚ), 0, 0], 0 ≤ p) ∧ ([(1 : ℚ), 0, 0].sum = 1) ∧
    ((predict_top (fun _ => [(1 : ℚ), 0, 0]) (fun i => toString i) (fun _ => "en")
        "x" (some "en") 2).length ≤ 2 ∧
     ((predict_top (fun _ => [(1 : ℚ), 0, 0]) (fun i => toString i) (fun _ => "en")
        "x" (some "en") 2).map (fun t => t.2.2)).Pairwise (fun a b => b ≤ a) ∧
     (∀ t ∈ predict_top (fun _ => [(1 : ℚ), 0, 0]) (fun i => toString i) (fun _ => "en")
        "x" (some "en") 2, 0 ≤ t.2.2 ∧ t.2.2 ≤ 1) ∧
     ([(1 : ℚ), 0, 0].sum ≤ 1)) :=
  ⟨by decide, by decide, by simp,
   claim_C2 (fun _ => [(1 : ℚ), 0, 0]) (fun i => toString i) (fun _ => "en")
     "x" (some "en") 2 (by decide) (by decide) (by simp)⟩
